import Mathlib

/-!
Verification of the l402-js protocol engine (Express middleware + client)
against its natural-language specification.

The development shallowly embeds the TypeScript sources:
  * `src/middleware.ts` — macaroon codec, preimage verification, the `l402`
    Express middleware (challenge issuance / credential verification);
  * `src/client.ts` — the auto-paying fetch client with its token cache;
  * `src/lnd-fetch.ts` — the TLS-bypass-scoped fetch helper.

Machine-level primitives the code relies on (SHA-256, hex/base64 codecs,
UTF-8, `JSON.parse`/`JSON.stringify`) are embedded as executable Lean
functions over `Nat` byte lists and `List Char`, faithful on the data the
library produces and consumes.  Network effects are modelled by passing the
collaborator's response (the LND backend, the target server) as an explicit
argument, and the `NODE_TLS_REJECT_UNAUTHORIZED` environment variable as
explicit `Option String` state.
-/

namespace L402

/-! ## Byte-string primitives: hex, base64, UTF-8 -/

/-- One lowercase hex digit, as Node's `'hex'` encoding emits. -/
def hexDigit (n : Nat) : Char :=
  Char.ofNat (n + if n < 10 then 48 else 87)

/-- Lowercase hex rendering of a byte list (Node `buf.toString('hex')`). -/
def hexEncode (bs : List Nat) : String :=
  String.mk (bs.foldr (fun b acc => hexDigit (b / 16) :: hexDigit (b % 16) :: acc) [])

/-- Value of a hex digit, upper or lower case (Node hex decoding is
case-insensitive). -/
def hexVal (c : Char) : Option Nat :=
  let n := c.toNat
  if 48 ≤ n ∧ n ≤ 57 then some (n - 48)
  else if 97 ≤ n ∧ n ≤ 102 then some (n - 87)
  else if 65 ≤ n ∧ n ≤ 70 then some (n - 55)
  else none

/-- Hex decoding of a character list, Node style: bytes are read two digits at
a time and decoding stops at the first incomplete or invalid pair
(`Buffer.from(s, 'hex')`). -/
def hexDecodeChars : List Char → List Nat
  | c1 :: c2 :: rest =>
    match hexVal c1, hexVal c2 with
    | some hi, some lo => (16 * hi + lo) :: hexDecodeChars rest
    | _, _ => []
  | _ => []

/-- `Buffer.from(s, 'hex')` as a byte list. -/
def hexDecode (s : String) : List Nat := hexDecodeChars s.data

/-- The base64 alphabet. -/
def b64Alphabet : List Char :=
  "ABCDEFGHIJKLMNOPQRSTUVWXYZabcdefghijklmnopqrstuvwxyz0123456789+/".data

/-- The base64 character for a 6-bit value. -/
def b64Char (n : Nat) : Char := b64Alphabet.getD n 'A'

/-- Standard padded base64 of a byte list (`buf.toString('base64')`). -/
def base64EncodeList : List Nat → List Char
  | b0 :: b1 :: b2 :: rest =>
      b64Char (b0 / 4) :: b64Char (b0 % 4 * 16 + b1 / 16) ::
      b64Char (b1 % 16 * 4 + b2 / 64) :: b64Char (b2 % 64) :: base64EncodeList rest
  | [b0, b1] => [b64Char (b0 / 4), b64Char (b0 % 4 * 16 + b1 / 16), b64Char (b1 % 16 * 4), '=']
  | [b0] => [b64Char (b0 / 4), b64Char (b0 % 4 * 16), '=', '=']
  | [] => []

/-- `Buffer.from(bytes).toString('base64')`. -/
def base64Encode (bs : List Nat) : String := String.mk (base64EncodeList bs)

/-- Index of a character in the base64 alphabet. -/
def b64Val (c : Char) : Option Nat := b64Alphabet.findIdx? (· == c)

/-- Reassemble bytes from a stream of 6-bit values; a trailing group of two or
three values contributes one or two bytes, as Node's lenient decoder does. -/
def b64DecodeVals : List Nat → List Nat
  | v0 :: v1 :: v2 :: v3 :: rest =>
      (v0 * 4 + v1 / 16) :: (v1 % 16 * 16 + v2 / 4) :: (v2 % 4 * 64 + v3) ::
        b64DecodeVals rest
  | [v0, v1, v2] => [v0 * 4 + v1 / 16, v1 % 16 * 16 + v2 / 4]
  | [v0, v1] => [v0 * 4 + v1 / 16]
  | _ => []

/-- `Buffer.from(s, 'base64')`, Node's lenient reading: decoding stops at the
first `'='` and any character outside the alphabet is skipped. -/
def base64Decode (s : String) : List Nat :=
  b64DecodeVals ((s.data.takeWhile (· ≠ '=')).filterMap b64Val)

/-- UTF-8 encoding of one character. -/
def utf8EncodeChar (c : Char) : List Nat :=
  let n := c.toNat
  if n < 128 then [n]
  else if n < 2048 then [192 + n / 64, 128 + n % 64]
  else if n < 65536 then [224 + n / 4096, 128 + n / 64 % 64, 128 + n % 64]
  else [240 + n / 262144, 128 + n / 4096 % 64, 128 + n / 64 % 64, 128 + n % 64]

/-- UTF-8 encoding of a string (`Buffer.from(s)`). -/
def utf8Encode (s : String) : List Nat :=
  s.data.foldr (fun c acc => utf8EncodeChar c ++ acc) []

/-- Is a byte a UTF-8 continuation byte? -/
def utf8Cont (b : Nat) : Bool := 128 ≤ b && b < 192

/-- UTF-8 decoding with U+FFFD substitution on malformed input, as Node's
`buf.toString('utf8')` performs (it never throws); `fuel` is instantiated to
the byte count, which always suffices since every step consumes a byte. -/
def utf8DecodeFuel : Nat → List Nat → List Char
  | _, [] => []
  | 0, _ :: _ => []
  | fuel + 1, b :: rest =>
    if b < 128 then Char.ofNat b :: utf8DecodeFuel fuel rest
    else if 194 ≤ b ∧ b < 224 then
      match rest with
      | b1 :: rest1 =>
        if utf8Cont b1 then Char.ofNat ((b - 192) * 64 + (b1 - 128)) :: utf8DecodeFuel fuel rest1
        else '�' :: utf8DecodeFuel fuel rest
      | [] => ['�']
    else if 224 ≤ b ∧ b < 240 then
      match rest with
      | b1 :: b2 :: rest2 =>
        if utf8Cont b1 ∧ utf8Cont b2 then
          let n := (b - 224) * 4096 + (b1 - 128) * 64 + (b2 - 128)
          if 2048 ≤ n ∧ ¬(55296 ≤ n ∧ n ≤ 57343) then
            Char.ofNat n :: utf8DecodeFuel fuel rest2
          else '�' :: utf8DecodeFuel fuel rest
        else '�' :: utf8DecodeFuel fuel rest
      | _ => ['�']
    else if 240 ≤ b ∧ b < 245 then
      match rest with
      | b1 :: b2 :: b3 :: rest3 =>
        if utf8Cont b1 ∧ utf8Cont b2 ∧ utf8Cont b3 then
          let n := (b - 240) * 262144 + (b1 - 128) * 4096 + (b2 - 128) * 64 + (b3 - 128)
          if 65536 ≤ n ∧ n < 1114112 then
            Char.ofNat n :: utf8DecodeFuel fuel rest3
          else '�' :: utf8DecodeFuel fuel rest
        else '�' :: utf8DecodeFuel fuel rest
      | _ => ['�']
    else '�' :: utf8DecodeFuel fuel rest

/-- `buf.toString('utf8')`. -/
def utf8Decode (bs : List Nat) : String := String.mk (utf8DecodeFuel bs.length bs)

/-! ## JavaScript string helpers

`String.prototype.slice`, `toLowerCase`, `startsWith` and `lastIndexOf` over
the character sequence (ASCII-faithful, which covers every value the library
builds). -/

/-- `s.slice(0, n)`. -/
def strTake (s : String) (n : Nat) : String := String.mk (s.data.take n)

/-- `s.slice(n)`. -/
def strDrop (s : String) (n : Nat) : String := String.mk (s.data.drop n)

/-- `s.toLowerCase()` (ASCII case mapping). -/
def strToLower (s : String) : String := String.mk (s.data.map Char.toLower)

/-- `s.startsWith(pre)`. -/
def strStartsWith (s pre : String) : Bool := pre.data.isPrefixOf s.data

/-- `s.lastIndexOf(':')`: index of the last colon, `-1` when there is none. -/
def lastIndexOfColon (s : String) : Int :=
  match s.data.reverse.findIdx? (· == ':') with
  | some i => (s.data.length : Int) - 1 - i
  | none => -1

/-! ## SHA-256 over byte lists -/

/-- Truncate to a 32-bit word, the machine width of every SHA-256 operation. -/
def w32 (n : Nat) : Nat := n % 4294967296

/-- 32-bit right rotation: the high part shifted down plus the low `n` bits
moved to the top (the disjoint-bit sum form of the usual shift-or). -/
def rotr (n x : Nat) : Nat := w32 (x >>> n + x % 2 ^ n * 2 ^ (32 - n))

/-- 32-bit bitwise complement. -/
def bnot32 (x : Nat) : Nat := 4294967295 - x

/-- The SHA-256 round constants K. -/
def shaK : List Nat :=
  [1116352408, 1899447441, 3049323471, 3921009573, 961987163, 1508970993,
   2453635748, 2870763221, 3624381080, 310598401, 607225278, 1426881987,
   1925078388, 2162078206, 2614888103, 3248222580, 3835390401, 4022224774,
   264347078, 604807628, 770255983, 1249150122, 1555081692, 1996064986,
   2554220882, 2821834349, 2952996808, 3210313671, 3336571891, 3584528711,
   113926993, 338241895, 666307205, 773529912, 1294757372, 1396182291,
   1695183700, 1986661051, 2177026350, 2456956037, 2730485921, 2820302411,
   3259730800, 3345764771, 3516065817, 3600352804, 4094571909, 275423344,
   430227734, 506948616, 659060556, 883997877, 958139571, 1322822218,
   1537002063, 1747873779, 1955562222, 2024104815, 2227730452, 2361852424,
   2428436474, 2756734187, 3204031479, 3329325298]

/-- The SHA-256 working state: eight 32-bit words. -/
structure Sha8 where
  a : Nat
  b : Nat
  c : Nat
  d : Nat
  e : Nat
  f : Nat
  g : Nat
  h : Nat
deriving Repr, DecidableEq

/-- The SHA-256 initial hash value H0. -/
def shaH0 : Sha8 :=
  ⟨1779033703, 3144134277, 1013904242, 2773480762, 1359893119, 2600822924, 528734635, 1541459225⟩

/-- SHA-256 padding: append 0x80, zero bytes to 56 mod 64, then the bit length
as an 8-byte big-endian integer. -/
def shaPad (msg : List Nat) : List Nat :=
  let len := msg.length
  let zeros := (64 + 55 - len % 64) % 64
  let bitLen := len * 8
  msg ++ [128] ++ List.replicate zeros 0 ++
    [w32 (bitLen >>> 56) % 256, (bitLen >>> 48) % 256, (bitLen >>> 40) % 256,
     (bitLen >>> 32) % 256, (bitLen >>> 24) % 256, (bitLen >>> 16) % 256,
     (bitLen >>> 8) % 256, bitLen % 256]

/-- Pack a list of bytes into big-endian 32-bit words, four bytes per word. -/
def toWords : List Nat → List Nat
  | b0 :: b1 :: b2 :: b3 :: rest =>
      (b0 * 16777216 + b1 * 65536 + b2 * 256 + b3) :: toWords rest
  | _ => []

/-- One step of message-schedule extension; `rev` holds the words produced so
far, most recent first, so `rev.getD k 0` is word `w[i-1-k]`. -/
def extendStep (rev : List Nat) : List Nat :=
  let wm15 := rev.getD 14 0
  let wm2 := rev.getD 1 0
  let s0 := (rotr 7 wm15) ^^^ (rotr 18 wm15) ^^^ (wm15 >>> 3)
  let s1 := (rotr 17 wm2) ^^^ (rotr 19 wm2) ^^^ (wm2 >>> 10)
  w32 (rev.getD 15 0 + s0 + rev.getD 6 0 + s1) :: rev

/-- Iterate schedule extension `n` times. -/
def extendLoop : Nat → List Nat → List Nat
  | 0, rev => rev
  | n + 1, rev => extendLoop n (extendStep rev)

/-- Extend 16 message words into the 64-word SHA-256 message schedule. -/
def extendW (ws : List Nat) : List Nat :=
  (extendLoop 48 ws.reverse).reverse

/-- One SHA-256 round: mix the round constant and schedule word into the state. -/
def shaRound (st : Sha8) (k : Nat) (wi : Nat) : Sha8 :=
  let S1 := (rotr 6 st.e) ^^^ (rotr 11 st.e) ^^^ (rotr 25 st.e)
  let ch := (st.e &&& st.f) ^^^ ((bnot32 st.e) &&& st.g)
  let temp1 := w32 (st.h + S1 + ch + k + wi)
  let S0 := (rotr 2 st.a) ^^^ (rotr 13 st.a) ^^^ (rotr 22 st.a)
  let maj := (st.a &&& st.b) ^^^ (st.a &&& st.c) ^^^ (st.b &&& st.c)
  let temp2 := w32 (S0 + maj)
  ⟨w32 (temp1 + temp2), st.a, st.b, st.c, w32 (st.d + temp1), st.e, st.f, st.g⟩

/-- Compress one 64-byte block into the running hash state. -/
def shaBlock (st : Sha8) (block : List Nat) : Sha8 :=
  let w := extendW (toWords block)
  let final := (List.zip shaK w).foldl (fun s kw => shaRound s kw.1 kw.2) st
  ⟨w32 (st.a + final.a), w32 (st.b + final.b), w32 (st.c + final.c), w32 (st.d + final.d),
   w32 (st.e + final.e), w32 (st.f + final.f), w32 (st.g + final.g), w32 (st.h + final.h)⟩

/-- Split a byte list into 64-byte blocks; `fuel` bounds the number of blocks
and is instantiated to the list length, which always suffices. -/
def toBlocksFuel : Nat → List Nat → List (List Nat)
  | _, [] => []
  | 0, _ :: _ => []
  | fuel + 1, a :: rest => (a :: rest).take 64 :: toBlocksFuel fuel ((a :: rest).drop 64)

/-- Split a byte list into 64-byte blocks. -/
def toBlocks (l : List Nat) : List (List Nat) := toBlocksFuel l.length l

/-- SHA-256 of a byte list, as the 32 digest bytes. -/
def sha256 (msg : List Nat) : List Nat :=
  let st := (toBlocks (shaPad msg)).foldl shaBlock shaH0
  [st.a, st.b, st.c, st.d, st.e, st.f, st.g, st.h].foldr
    (fun word acc =>
      (word >>> 24) % 256 :: (word >>> 16) % 256 :: (word >>> 8) % 256 :: word % 256 :: acc) []

/-! ## ProofVerifier (`src/middleware.ts`, `verifyPreimage`) -/

/-- `verifyPreimage` from `src/middleware.ts`: hash the byte decoding of the
hex preimage with SHA-256, render the digest as lowercase hex, and compare it
to the committed hash with JavaScript `===` (exact string equality). -/
def verifyPreimage (preimage paymentHash : String) : Bool :=
  hexEncode (sha256 (hexDecode preimage)) == paymentHash

/-- The commitment function of the spec's `commit(secret)`: the SHA-256 digest
(as lowercase hex) of the byte decoding of the hex secret — exactly the hash
`verifyPreimage` computes on its first argument. -/
def commit (secret : String) : String :=
  hexEncode (sha256 (hexDecode secret))

/-! ## JSON values, `JSON.parse` and the macaroon codec

JavaScript JSON values, with numbers restricted to integers — the only
numbers the library ever serializes (`version`, `issuedAt`, `price`,
`code` are all integral); the embedded parser rejects fractional and
exponent numerals rather than misreading them. -/

/-- A parsed JSON value (integer-numeral fragment). -/
inductive Json where
  | null : Json
  | bool (b : Bool) : Json
  | num (n : Int) : Json
  | str (s : String) : Json
  | arr (elems : List Json) : Json
  | obj (fields : List (String × Json)) : Json
deriving Repr

/-- JavaScript member access `j[k]`: a field of an object (`JSON.parse`
keeps the last of duplicate keys), `undefined` (`none`) on everything else. -/
def getField (j : Json) (k : String) : Option Json :=
  match j with
  | .obj fields => (fields.reverse.find? (·.1 == k)).map (·.2)
  | _ => none

/-- JavaScript truthiness of a possibly-`undefined` JSON value. -/
def truthy : Option Json → Bool
  | none => false
  | some .null => false
  | some (.bool b) => b
  | some (.num n) => n != 0
  | some (.str s) => s != ""
  | some (.arr _) => true
  | some (.obj _) => true

/-- JSON whitespace. -/
def jsonWs (c : Char) : Bool := ([' ', '\n', '\r', '\t'] : List Char).contains c

/-- Is a character a decimal digit? -/
def isDigitCh (c : Char) : Bool := 48 ≤ c.toNat && c.toNat ≤ 57

/-- Prepend a character to the string half of a partial parse. -/
def strConsFst (c : Char) : Option (String × List Char) → Option (String × List Char)
  | some (s, r) => some (String.mk (c :: s.data), r)
  | none => none

/-- Parse the body of a JSON string literal (after the opening quote),
handling the escape sequences `JSON.parse` accepts; rejects raw control
characters as `JSON.parse` does.  Surrogate-pair `\u` escapes are out of the
modelled fragment (none of the library's tokens contain them). -/
def parseStringBody : List Char → Option (String × List Char)
  | [] => none
  | '"' :: rest => some ("", rest)
  | '\\' :: '"' :: r => strConsFst '"' (parseStringBody r)
  | '\\' :: '\\' :: r => strConsFst '\\' (parseStringBody r)
  | '\\' :: '/' :: r => strConsFst '/' (parseStringBody r)
  | '\\' :: 'b' :: r => strConsFst '\x08' (parseStringBody r)
  | '\\' :: 'f' :: r => strConsFst '\x0c' (parseStringBody r)
  | '\\' :: 'n' :: r => strConsFst '\n' (parseStringBody r)
  | '\\' :: 'r' :: r => strConsFst '\r' (parseStringBody r)
  | '\\' :: 't' :: r => strConsFst '\t' (parseStringBody r)
  | '\\' :: 'u' :: h1 :: h2 :: h3 :: h4 :: r =>
    match hexVal h1, hexVal h2, hexVal h3, hexVal h4 with
    | some v1, some v2, some v3, some v4 =>
        strConsFst (Char.ofNat (v1 * 4096 + v2 * 256 + v3 * 16 + v4)) (parseStringBody r)
    | _, _, _, _ => none
  | '\\' :: _ => none
  | c :: rest =>
    if c.toNat < 32 then none
    else strConsFst c (parseStringBody rest)

/-- Decimal value of a digit list. -/
def digitsToNat (ds : List Char) : Nat :=
  ds.foldl (fun acc c => 10 * acc + c.toNat - 48) 0

/-- Parse an unsigned JSON integer numeral: digits without a redundant
leading zero; a following `.`, `e` or `E` (a fractional or exponent numeral)
is outside the modelled fragment and rejected. -/
def parseNatBody (cs : List Char) : Option (Nat × List Char) :=
  let ds := cs.takeWhile isDigitCh
  let rest := cs.dropWhile isDigitCh
  if ds.isEmpty then none
  else if ds.length > 1 ∧ ds.headD '0' == '0' then none
  else match rest with
    | '.' :: _ => none
    | 'e' :: _ => none
    | 'E' :: _ => none
    | _ => some (digitsToNat ds, rest)

/-- Parse a JSON integer numeral, with its optional leading minus. -/
def parseNumBody : List Char → Option (Int × List Char)
  | '-' :: cs => (parseNatBody cs).map (fun p => (-(p.1 : Int), p.2))
  | cs => (parseNatBody cs).map (fun p => ((p.1 : Int), p.2))

/-- The parsing mode: a single value, the remaining elements of an array, or
the remaining members of an object. -/
inductive PMode where
  | value : PMode
  | elems (acc : List Json) : PMode
  | membs (acc : List (String × Json)) : PMode

/-- Recursive-descent JSON parsing; each recursive call decreases `fuel` by
one and the call depth is bounded by twice the input length, so the fuel
`jsonParse` supplies always suffices. -/
def parseJsonF : Nat → PMode → List Char → Option (Json × List Char)
  | 0, _, _ => none
  | fuel + 1, .value, cs =>
    match cs.dropWhile jsonWs with
    | 'n' :: rest =>
      if ("ull".data).isPrefixOf rest then some (.null, rest.drop 3) else none
    | 't' :: rest =>
      if ("rue".data).isPrefixOf rest then some (.bool true, rest.drop 3) else none
    | 'f' :: rest =>
      if ("alse".data).isPrefixOf rest then some (.bool false, rest.drop 4) else none
    | '"' :: rest => (parseStringBody rest).map (fun p => (.str p.1, p.2))
    | '[' :: rest =>
      match rest.dropWhile jsonWs with
      | ']' :: rest1 => some (.arr [], rest1)
      | _ => parseJsonF fuel (.elems []) rest
    | '\x7b' :: rest =>
      match rest.dropWhile jsonWs with
      | '\x7d' :: rest1 => some (.obj [], rest1)
      | _ => parseJsonF fuel (.membs []) rest
    | rest => (parseNumBody rest).map (fun p => (.num p.1, p.2))
  | fuel + 1, .elems acc, cs =>
    match parseJsonF fuel .value cs with
    | none => none
    | some (v, rest) =>
      match rest.dropWhile jsonWs with
      | ',' :: rest1 => parseJsonF fuel (.elems (v :: acc)) rest1
      | ']' :: rest1 => some (.arr (v :: acc).reverse, rest1)
      | _ => none
  | fuel + 1, .membs acc, cs =>
    match cs.dropWhile jsonWs with
    | '"' :: rest =>
      match parseStringBody rest with
      | none => none
      | some (k, rest1) =>
        match rest1.dropWhile jsonWs with
        | ':' :: rest2 =>
          match parseJsonF fuel .value rest2 with
          | none => none
          | some (v, rest3) =>
            match rest3.dropWhile jsonWs with
            | ',' :: rest4 => parseJsonF fuel (.membs ((k, v) :: acc)) rest4
            | '\x7d' :: rest4 => some (.obj ((k, v) :: acc).reverse, rest4)
            | _ => none
        | _ => none
    | _ => none

/-- `JSON.parse`: parse one JSON value and require only whitespace after it;
any failure is the thrown-and-caught case, `none`. -/
def jsonParse (s : String) : Option Json :=
  match parseJsonF (2 * s.data.length + 8) .value s.data with
  | some (v, rest) => if (rest.dropWhile jsonWs).isEmpty then some v else none
  | none => none

/-- `JSON.stringify` escaping of one string character. -/
def jsonEscapeChar (c : Char) : List Char :=
  if c == '"' then ['\\', '"']
  else if c == '\\' then ['\\', '\\']
  else if c == '\x08' then ['\\', 'b']
  else if c == '\x0c' then ['\\', 'f']
  else if c == '\n' then ['\\', 'n']
  else if c == '\r' then ['\\', 'r']
  else if c == '\t' then ['\\', 't']
  else if c.toNat < 32 then
    "\\u00".data ++ [hexDigit (c.toNat / 16), hexDigit (c.toNat % 16)]
  else [c]

/-- `JSON.stringify` rendering of a string value, without the delimiting
quotes. -/
def jsonEscape (s : String) : String :=
  String.mk (s.data.foldr (fun c acc => jsonEscapeChar c ++ acc) [])

/-- `createServiceMacaroon` from `src/middleware.ts`: base64 of the
`JSON.stringify` of `\x7b version: 1, paymentHash, service, issuedAt \x7d`
(fields in that order, `issuedAt` being `Date.now()`, passed in explicitly
here since it is the only nondeterministic input). -/
def createServiceMacaroon (paymentHash service : String) (issuedAt : Int) : String :=
  base64Encode (utf8Encode
    ("\x7b\"version\":1,\"paymentHash\":\"" ++ jsonEscape paymentHash ++
     "\",\"service\":\"" ++ jsonEscape service ++
     "\",\"issuedAt\":" ++ toString issuedAt ++ "\x7d"))

/-- `parseServiceMacaroon` from `src/middleware.ts`: base64-decode, read as
UTF-8, `JSON.parse`, and return the value only when both `version` and
`paymentHash` are truthy; every failure (including a `JSON.parse` throw) is
`null`. -/
def parseServiceMacaroon (macaroonBase64 : String) : Option Json :=
  match jsonParse (utf8Decode (base64Decode macaroonBase64)) with
  | some data =>
    if truthy (getField data "version") && truthy (getField data "paymentHash") then
      some data
    else none
  | none => none

/-! ## The `l402` Express middleware (`src/middleware.ts`) -/

/-- The slice of an Express request the middleware reads. -/
structure MwRequest where
  authorization : Option String
  method : String
  path : String
deriving Repr

/-- The middleware configuration (`L402MiddlewareConfig`), restricted to the
fields the middleware reads; the pricing function is modelled as a pure
function of the request (the code `await`s it, so synchronous and
asynchronous suppliers coincide), and prices are JavaScript numbers used
integrally throughout the library, embedded as `Int`. -/
structure MwConfig where
  price : Int
  description : Option String
  priceFn : Option (MwRequest → Int)
  skipTlsVerify : Bool

/-- The LND invoice-creation response fields the middleware uses
(`LndInvoiceResponse`). -/
structure LndInvoiceResponse where
  r_hash : String
  payment_request : String
deriving Repr

/-- The proof the middleware attaches as `req.l402` (`L402Proof`); `paid` is
always `true` in the source and is omitted, `service` is whatever JSON value
the macaroon carried (`undefined` when absent). -/
structure L402ProofData where
  preimage : String
  paymentHash : String
  service : Option Json
deriving Repr

/-- The response the middleware writes when it does not call `next()`. -/
structure MwResponse where
  status : Nat
  wwwAuthenticate : Option String
  body : Json
deriving Repr

/-- Everything one middleware invocation does: the response written (none
when the request was handed to the protected handler), how often `next()`
ran, and the proof attached to the request. -/
structure MwOutcome where
  response : Option MwResponse
  nextCalls : Nat
  proof : Option L402ProofData
deriving Repr

/-- The construction-time effect of `l402(config)` on the process-wide
`NODE_TLS_REJECT_UNAUTHORIZED` variable: the source sets it to `'0'` when
`skipTlsVerify` is configured, before any backend call and with no restoring
code anywhere in the middleware. -/
def l402Construct (skipTlsVerify : Bool) (env : Option String) : Option String :=
  if skipTlsVerify then some "0" else env

/-- Does the credential header enter the L402 branch?  JavaScript:
`authHeader && authHeader.toLowerCase().startsWith('l402 ')`. -/
def headerMatches : Option String → Bool
  | none => false
  | some a => a != "" && strStartsWith (strToLower a) "l402 "

/-- The "401 Invalid L402 token" rejection. -/
def invalidTokenResponse : MwResponse :=
  { status := 401, wwwAuthenticate := none,
    body := .obj [("error", .str "Invalid L402 token")] }

/-- The "500 Payment gateway error" failure response. -/
def gatewayErrorResponse : MwResponse :=
  { status := 500, wwwAuthenticate := none,
    body := .obj [("error", .str "Payment gateway error")] }

/-- One request through the `l402` middleware handler, with the collaborators
made explicit: `invoiceResult` is what `createInvoice` comes back with (`.ok`
for a parsed response, `.error` for a rejected fetch or a non-ok status) and
`now` is `Date.now()` at macaroon-creation time.

Control flow transcribed from `src/middleware.ts`:
an `L402`-scheme credential is split at its last colon; a positive split
point, a parsing macaroon and a verifying preimage reach `next()` with the
proof attached, anything else under the scheme is a 401; without the scheme
the middleware prices the request, asks LND for an invoice, and answers 402
with the challenge (or 500 when the backend call fails). -/
def l402Handle (cfg : MwConfig) (invoiceResult : Except String LndInvoiceResponse)
    (now : Int) (req : MwRequest) : MwOutcome :=
  if headerMatches req.authorization then
    let a := req.authorization.getD ""
    let token := strDrop a 5
    let colonIndex := lastIndexOfColon token
    if 0 < colonIndex then
      let macaroonB64 := strTake token colonIndex.toNat
      let preimage := strDrop token (colonIndex.toNat + 1)
      match parseServiceMacaroon macaroonB64 with
      | some macaroonData =>
        match getField macaroonData "paymentHash" with
        | some (.str paymentHash) =>
          if verifyPreimage preimage paymentHash then
            { response := none, nextCalls := 1,
              proof := some { preimage, paymentHash,
                              service := getField macaroonData "service" } }
          else { response := some invalidTokenResponse, nextCalls := 0, proof := none }
        | _ =>
          -- `paymentHash` truthy but not a string: `hash === paymentHash`
          -- compares a string with a non-string and is false.
          { response := some invalidTokenResponse, nextCalls := 0, proof := none }
      | none => { response := some invalidTokenResponse, nextCalls := 0, proof := none }
    else { response := some invalidTokenResponse, nextCalls := 0, proof := none }
  else
    let finalPrice := match cfg.priceFn with
      | some f => f req
      | none => cfg.price
    let memo := match cfg.description with
      | some d => if d == "" then "L402 access: " ++ req.method ++ " " ++ req.path else d
      | none => "L402 access: " ++ req.method ++ " " ++ req.path
    match invoiceResult with
    | .error _ => { response := some gatewayErrorResponse, nextCalls := 0, proof := none }
    | .ok invoice =>
      let paymentHashHex := hexEncode (base64Decode invoice.r_hash)
      let serviceMacaroon := createServiceMacaroon paymentHashHex req.path now
      { response := some
          { status := 402,
            wwwAuthenticate := some ("L402 macaroon=\"" ++ serviceMacaroon ++
              "\", invoice=\"" ++ invoice.payment_request ++ "\""),
            body := .obj
              [("code", .num 402), ("message", .str "Payment Required"),
               ("invoice", .str invoice.payment_request),
               ("macaroon", .str serviceMacaroon),
               ("price", .num finalPrice), ("description", .str memo)] },
        nextCalls := 0, proof := none }

/-! ## `lndFetch` (`src/lnd-fetch.ts`): scoped TLS bypass -/

/-- The `NODE_TLS_REJECT_UNAUTHORIZED` state around one `lndFetch` call: the
pair is (value while the wrapped `fetch` runs, value after the call returns
or throws).  Without `skipTlsVerify` the variable is untouched; with it, the
source saves the prior value, sets `'0'`, and in a `finally` block restores
the saved value (deleting the variable when it was unset). -/
def lndFetchEnv (skipTlsVerify : Bool) (env : Option String) :
    Option String × Option String :=
  if skipTlsVerify then (some "0", env) else (env, env)

/-! ## The L402 client (`src/client.ts`) -/

/-- A target-server response as the client sees it: a status code and the
already-parsed JSON body (`res.json()`). -/
structure HttpResponse where
  status : Nat
  body : Json
deriving Repr

/-- What the LND payment call (`payInvoice`) runs into: the fetch itself
rejecting, a non-ok HTTP status, or a parsed `LndPaymentResponse` carrying
`payment_error` and `payment_preimage` (base64). -/
inductive LndPayOutcome where
  | reject (msg : String) : LndPayOutcome
  | httpError (status : Nat) (statusText : String) : LndPayOutcome
  | ok (payment_error : String) (payment_preimage : String) : LndPayOutcome
deriving Repr

/-- The collaborators of one `l402Fetch` call: the target's response to the
initial request, the LND payment outcome (consulted only if a payment is
attempted), and the target's response to the authorized retry (consulted
only if one happens). -/
structure ClientWorld where
  firstResponse : HttpResponse
  payOutcome : LndPayOutcome
  retryResponse : HttpResponse
deriving Repr

/-- A network call the client made: a request to the target URL with its
header object, or a settlement call to the LND backend with the
`payment_request` it forwarded. -/
inductive ClientEvent where
  | targetCall (headers : List (String × String)) : ClientEvent
  | lndPay (paymentRequest : Option Json) : ClientEvent
deriving Repr

/-- The value `l402Fetch` resolves with (`L402FetchResult`). -/
structure FetchResult where
  data : Json
  paid : Bool
  price : Option Json
  preimage : Option String
deriving Repr

/-- One `l402Fetch` call, fully accounted for: the resolved value or the
thrown error message, the token cache afterwards, and the network calls made
in order. -/
structure FetchOutcome where
  result : Except String FetchResult
  cache : List (String × String)
  events : List ClientEvent
deriving Repr

/-- Set a key in a JavaScript object / `Map`, overwriting the entry in place
when the key is present (JavaScript keys are unique) and appending
otherwise. -/
def setKey : List (String × String) → String → String → List (String × String)
  | [], k, v => [(k, v)]
  | (k', v') :: rest, k, v =>
    if k' == k then (k, v) :: rest else (k', v') :: setKey rest k v

/-- Look a key up in a JavaScript object / `Map`. -/
def getKey (hs : List (String × String)) (k : String) : Option String :=
  (hs.find? (·.1 == k)).map (·.2)

/-- The header object of the client's initial request: the caller's headers,
with the cached token attached as `Authorization` when the cache holds one
for the URL. -/
def initialHeaders (url : String) (optHeaders cache : List (String × String)) :
    List (String × String) :=
  match getKey cache url with
  | some cachedToken => setKey optHeaders "Authorization" cachedToken
  | none => optHeaders

/-- JavaScript template-literal rendering of a JSON value (`Array` elements
render recursively with `null` as empty); `fuel` is instantiated to the
value's size, which bounds the nesting depth. -/
def jsToStrF : Nat → Json → String
  | _, .null => "null"
  | _, .bool b => cond b "true" "false"
  | _, .num n => toString n
  | _, .str s => s
  | _ + 1, .obj _ => "[object Object]"
  | fuel + 1, .arr xs =>
      String.intercalate ","
        (xs.map (fun x => match x with
          | .null => ""
          | y => jsToStrF fuel y))
  | 0, _ => ""

/-- Template-literal interpolation of a possibly-`undefined` JSON value; the
fuel bounds array-nesting depth and 1000000 covers every value a JSON body
of any realistic size can reach (scalars ignore it entirely). -/
def jsTemplate : Option Json → String
  | none => "undefined"
  | some j => jsToStrF 1000000 j

/-- The comparison `challenge.price > maxAutoPaySats` under JavaScript
coercion for the JSON shapes a challenge can carry: numbers compare
numerically, `null` coerces to 0, booleans to 0/1, `undefined` compares
false; string-numeral coercion is outside the modelled fragment (no
conforming server sends a string price) and compares false. -/
def jsGtNum : Option Json → Int → Bool
  | some (.num n), m => m < n
  | some .null, m => m < 0
  | some (.bool b), m => m < (if b then 1 else 0)
  | _, _ => false

/-- The `maxAutoPaySats = 10000` destructuring default of
`createL402Client`. -/
def resolveMaxAutoPaySats (configured : Option Int) : Int := configured.getD 10000

/-- One `client.fetch(url, options)` call, transcribed from `src/client.ts`:
attach a cached token if present, issue the request; on any status but 402
resolve with the parsed body unpaid; on 402 read the challenge, enforce the
spend ceiling strictly before any payment, pay through LND (aborting on a
transport error, a non-ok status, or a truthy `payment_error`), cache the
freshly built `L402 macaroon:preimageHex` header for the URL, retry once
with it, and resolve with the retry's parsed body regardless of its
status. -/
def l402Fetch (maxAutoPaySats : Int) (world : ClientWorld) (url : String)
    (optHeaders : List (String × String)) (cache : List (String × String)) :
    FetchOutcome :=
  let headers := initialHeaders url optHeaders cache
  let res := world.firstResponse
  let ev0 := [ClientEvent.targetCall headers]
  if res.status ≠ 402 then
    { result := .ok { data := res.body, paid := false, price := none, preimage := none },
      cache, events := ev0 }
  else
    let challenge := res.body
    let price := getField challenge "price"
    if jsGtNum price maxAutoPaySats then
      { result := .error ("L402 price (" ++ jsTemplate price ++
          " sats) exceeds maxAutoPaySats (" ++ toString maxAutoPaySats ++
          "). Increase the limit or pay manually."),
        cache, events := ev0 }
    else
      let ev1 := ev0 ++ [ClientEvent.lndPay (getField challenge "invoice")]
      match world.payOutcome with
      | .reject msg => { result := .error msg, cache, events := ev1 }
      | .httpError status statusText =>
        { result := .error ("LND payment failed: " ++ toString status ++ " " ++ statusText),
          cache, events := ev1 }
      | .ok payErr payPreimage =>
        if payErr != "" then
          { result := .error ("Lightning payment failed: " ++ payErr),
            cache, events := ev1 }
        else
          let preimageHex := hexEncode (base64Decode payPreimage)
          let l402Token := "L402 " ++ jsTemplate (getField challenge "macaroon") ++
            ":" ++ preimageHex
          let cache1 := setKey cache url l402Token
          let headers1 := setKey headers "Authorization" l402Token
          let ev2 := ev1 ++ [ClientEvent.targetCall headers1]
          { result := .ok
              { data := world.retryResponse.body, paid := true,
                price := price, preimage := some preimageHex },
            cache := cache1, events := ev2 }

/-! ## Auxiliary definitions for the claims -/

/-- Uppercase rendering of a string (ASCII case mapping), for stating the
spec's "uppercase hex rendering". -/
def strToUpper (s : String) : String := String.mk (s.data.map Char.toUpper)

/-- A failing payment step, in the source's taxonomy: the LND fetch rejects,
LND answers a non-ok HTTP status, or the parsed response carries a truthy
`payment_error`. -/
def payFails : LndPayOutcome → Bool
  | .reject _ => true
  | .httpError _ _ => true
  | .ok payErr _ => payErr != ""

/-- The deterministic preimage the repository's tests fix (hex). -/
def testPreimage : String :=
  "aabbccdd00112233aabbccdd00112233aabbccdd00112233aabbccdd00112233"

/-- SHA-256 of the test preimage's bytes, lowercase hex — the payment hash
the test fixtures commit to. -/
def testPaymentHash : String :=
  "964d416b01134ba7a3a1aa0d4ef7410ef431756f83673e69f8e0fc3a05807190"

/-- The test payment hash in base64, as LND's `r_hash` field carries it. -/
def testPaymentHashB64 : String := base64Encode (hexDecode testPaymentHash)

/-- A service macaroon for the test payment hash and `/api/test`, issued at a
fixed instant. -/
def testMacaroon : String :=
  createServiceMacaroon testPaymentHash "/api/test" 1700000000000

/-- The test preimage in base64, as LND's `payment_preimage` field carries
it. -/
def testPreimageB64 : String := base64Encode (hexDecode testPreimage)

/-- A well-formed 402 challenge body for the test fixtures. -/
def testChallengeBody : Json :=
  .obj [("code", .num 402), ("message", .str "Payment Required"),
        ("invoice", .str "lnbc100n1fake_invoice"), ("macaroon", .str testMacaroon),
        ("price", .num 100), ("description", .str "L402 access")]

/-! ## Helper lemmas -/

/-- Setting then reading the same key of a JavaScript object / `Map` yields
the value just written. -/
theorem getKey_setKey (hs : List (String × String)) (k v : String) :
    getKey (setKey hs k v) k = some v := by
  induction hs with
  | nil => simp [setKey, getKey]
  | cons hd tl ih =>
    by_cases h : hd.1 == k
    · simp [setKey, h, getKey]
    · simp [setKey, h, getKey] at ih ⊢
      simpa [List.find?] using ih

/-- A non-402 response makes `l402Fetch` resolve immediately: one target
call, no payment, cache untouched. -/
theorem l402Fetch_not402 (maxAutoPaySats : Int) (w : ClientWorld) (url : String)
    (optHeaders cache : List (String × String)) (h : w.firstResponse.status ≠ 402) :
    l402Fetch maxAutoPaySats w url optHeaders cache =
      { result := .ok { data := w.firstResponse.body, paid := false,
                        price := none, preimage := none },
        cache := cache,
        events := [.targetCall (initialHeaders url optHeaders cache)] } := by
  simp [l402Fetch, h]

/-- A 402 response within the ceiling followed by a clean payment makes
`l402Fetch` pay, cache the new token, and retry. -/
theorem l402Fetch_paid (maxAutoPaySats : Int) (w : ClientWorld) (url : String)
    (optHeaders cache : List (String × String)) (pp : String)
    (hs : w.firstResponse.status = 402)
    (hceiling : jsGtNum (getField w.firstResponse.body "price") maxAutoPaySats = false)
    (hpay : w.payOutcome = .ok "" pp) :
    l402Fetch maxAutoPaySats w url optHeaders cache =
      { result := .ok { data := w.retryResponse.body, paid := true,
                        price := getField w.firstResponse.body "price",
                        preimage := some (hexEncode (base64Decode pp)) },
        cache := setKey cache url ("L402 " ++
          jsTemplate (getField w.firstResponse.body "macaroon") ++ ":" ++
          hexEncode (base64Decode pp)),
        events := [.targetCall (initialHeaders url optHeaders cache),
          .lndPay (getField w.firstResponse.body "invoice"),
          .targetCall (setKey (initialHeaders url optHeaders cache) "Authorization"
            ("L402 " ++ jsTemplate (getField w.firstResponse.body "macaroon") ++ ":" ++
              hexEncode (base64Decode pp)))] } := by
  simp [l402Fetch, hs, hceiling, hpay, jsTemplate]

/-! ## The claims -/

set_option maxRecDepth 40000 in
/-- C1, counterexample: the claim "for every pair of distinct secrets s1 ≠ s2,
verify(s1, commit(s2)) returns false" fails on the code — hex decoding is
case-insensitive, so the distinct secrets "AB" and "ab" decode to the same
byte and "AB" verifies against the commitment of "ab". -/
theorem C1_commitment_soundness_counterexample :
    ("AB" : String) ≠ "ab" ∧ verifyPreimage "AB" (commit "ab") = true :=
  ⟨by decide, by decide⟩

/-- C1, amended: for every secret s, verify(s, commit(s)) is true; and in
general verify(s1, commit(s2)) is true exactly when commit(s1) = commit(s2),
so distinctness of secrets rules out verification only up to equality of
their commitments (distinct hex spellings of the same bytes, e.g. differing
in letter case, still verify). -/
theorem C1_commitment_soundness_amended :
    (∀ s : String, verifyPreimage s (commit s) = true) ∧
    (∀ s1 s2 : String, verifyPreimage s1 (commit s2) = (commit s1 == commit s2)) := by
  constructor
  · intro s; simp [verifyPreimage, commit]
  · intro s1 s2; rfl

set_option maxRecDepth 40000 in
/-- C2, code bug: the claim says a non-positive price is answered with 500
and a price-0 challenge is never emitted, but the middleware performs no
price validation at all — evaluated at the failing input (configured price 0,
invoice creation succeeding), the middleware answers 402 with a challenge
body whose price field is 0. -/
theorem C2_invalid_price_code_bug :
    ((l402Handle ⟨0, none, none, false⟩
        (.ok ⟨testPaymentHashB64, "lnbc100n1fake_invoice"⟩) 1700000000000
        ⟨none, "GET", "/api/test"⟩).response.map MwResponse.status = some 402) ∧
    ((l402Handle ⟨0, none, none, false⟩
        (.ok ⟨testPaymentHashB64, "lnbc100n1fake_invoice"⟩) 1700000000000
        ⟨none, "GET", "/api/test"⟩).response.map (fun r => getField r.body "price")
      = some (some (.num 0))) ∧
    (l402Handle ⟨0, none, none, false⟩
        (.ok ⟨testPaymentHashB64, "lnbc100n1fake_invoice"⟩) 1700000000000
        ⟨none, "GET", "/api/test"⟩).nextCalls = 0 :=
  ⟨rfl, rfl, rfl⟩

/-- C3, code bug: the claim says the TLS toggle is never left mutated outside
an individual backend call, but constructing the middleware with
`skipTlsVerify` sets the process-wide variable to "0" immediately —
clobbering whatever was there — and nothing in the middleware ever restores
it (its invoice call uses plain `fetch`); only the client-side `lndFetch`
helper scopes the bypass and restores the prior value after every call. -/
theorem C3_tls_scoping_code_bug :
    l402Construct true none = some "0" ∧
    l402Construct true (some "1") = some "0" ∧
    (∀ env, lndFetchEnv true env = (some "0", env)) :=
  ⟨rfl, rfl, fun _ => rfl⟩

set_option maxRecDepth 40000 in
/-- C4, counterexample: the claim says verification uses a case-normalized
hex comparison and in particular accepts the uppercase rendering of the
digest; on the code the comparison is exact — the uppercase rendering of
commit("ab") is case-normalized-equal to commit("ab") yet fails to
verify. -/
theorem C4_counterexample_uppercase_hash :
    strToLower (strToUpper (commit "ab")) = strToLower (commit "ab") ∧
    strToUpper (commit "ab") ≠ commit "ab" ∧
    verifyPreimage "ab" (strToUpper (commit "ab")) = false :=
  ⟨by decide, by decide, by decide⟩

/-- C4, amended: verify(s, H) is true exactly when commit(s) equals H as an
exact, case-sensitive string comparison (commit always emits lowercase hex,
so any differently-cased rendering of the digest is rejected). -/
theorem C4_amended_exact_hash_comparison :
    ∀ s H : String, verifyPreimage s H = true ↔ commit s = H := by
  intro s H
  simp [verifyPreimage, commit]

/-- C5: a challenge priced strictly above the spend ceiling makes the client
abort with an error naming both the offending price and the ceiling, before
any settlement call to the backend; the ceiling defaults to 10000. -/
theorem C5_spend_ceiling_aborts (maxAutoPaySats p : Int) (world : ClientWorld)
    (url : String) (optHeaders cache : List (String × String))
    (h402 : world.firstResponse.status = 402)
    (hprice : getField world.firstResponse.body "price" = some (.num p))
    (hover : maxAutoPaySats < p) :
    (l402Fetch maxAutoPaySats world url optHeaders cache).result =
      .error ("L402 price (" ++ toString p ++ " sats) exceeds maxAutoPaySats (" ++
        toString maxAutoPaySats ++ "). Increase the limit or pay manually.") ∧
    (∀ e ∈ (l402Fetch maxAutoPaySats world url optHeaders cache).events,
      ∀ pr, e ≠ .lndPay pr) ∧
    resolveMaxAutoPaySats none = 10000 := by
  have hgt : jsGtNum (some (Json.num p)) maxAutoPaySats = true := by
    simp [jsGtNum, hover]
  refine ⟨?_, ?_, rfl⟩
  · simp [l402Fetch, h402, hgt, hprice, jsTemplate, jsToStrF]
  · simp [l402Fetch, h402, hgt, hprice]

/-- C5, witness: ceiling 1000 against a concrete price-50000 challenge — the
client aborts with the error naming 50000 and 1000 and no settlement call
appears in the trace. -/
theorem C5_spend_ceiling_aborts_witness :
    (l402Fetch 1000
        ⟨⟨402, .obj [("code", .num 402), ("invoice", .str "lnbc10000n1expensive"),
                     ("macaroon", .str "m"), ("price", .num 50000),
                     ("description", .str "Expensive")]⟩,
         .ok "" "", ⟨200, .null⟩⟩
        "https://api.example.com/expensive" [] []).result =
      .error ("L402 price (50000 sats) exceeds maxAutoPaySats (1000). " ++
        "Increase the limit or pay manually.") ∧
    (∀ e ∈ (l402Fetch 1000
        ⟨⟨402, .obj [("code", .num 402), ("invoice", .str "lnbc10000n1expensive"),
                     ("macaroon", .str "m"), ("price", .num 50000),
                     ("description", .str "Expensive")]⟩,
         .ok "" "", ⟨200, .null⟩⟩
        "https://api.example.com/expensive" [] []).events,
      ∀ pr, e ≠ .lndPay pr) ∧
    resolveMaxAutoPaySats none = 10000 :=
  C5_spend_ceiling_aborts 1000 50000
    ⟨⟨402, .obj [("code", .num 402), ("invoice", .str "lnbc10000n1expensive"),
                 ("macaroon", .str "m"), ("price", .num 50000),
                 ("description", .str "Expensive")]⟩,
     .ok "" "", ⟨200, .null⟩⟩
    "https://api.example.com/expensive" [] [] rfl rfl (by decide)

/-- C6, counterexample: the claim says a request without a matching
credential is always answered with a payment-required challenge, but when
the backend invoice call fails the middleware answers 500, not 402 — shown
here at a concrete credential-less request with a rejected backend call (the
protected handler indeed never runs). -/
theorem C6_challenge_counterexample :
    ((l402Handle ⟨100, none, none, false⟩ (.error "ECONNREFUSED") 0
        ⟨none, "GET", "/api/test"⟩).response.map MwResponse.status = some 500) ∧
    ((l402Handle ⟨100, none, none, false⟩ (.error "ECONNREFUSED") 0
        ⟨none, "GET", "/api/test"⟩).response.map MwResponse.status ≠ some 402) ∧
    (l402Handle ⟨100, none, none, false⟩ (.error "ECONNREFUSED") 0
        ⟨none, "GET", "/api/test"⟩).nextCalls = 0 :=
  ⟨rfl, by decide, rfl⟩

/-- C6, amended: a request whose credential header is absent or does not
match the L402 scheme never reaches the protected handler; it is answered
with a 402 challenge carrying the invoice when the backend invoice creation
succeeds, and with a 500 internal failure when the backend call fails. -/
theorem C6_amended_no_credential_challenge (cfg : MwConfig)
    (invoiceResult : Except String LndInvoiceResponse) (now : Int) (req : MwRequest)
    (hnoauth : headerMatches req.authorization = false) :
    (l402Handle cfg invoiceResult now req).nextCalls = 0 ∧
    (∀ inv, invoiceResult = .ok inv →
      ∃ r, (l402Handle cfg invoiceResult now req).response = some r ∧ r.status = 402 ∧
        getField r.body "invoice" = some (.str inv.payment_request)) ∧
    (∀ e, invoiceResult = .error e →
      (l402Handle cfg invoiceResult now req).response.map MwResponse.status = some 500) := by
  rcases invoiceResult with e | inv
  · refine ⟨?_, ?_, ?_⟩
    · simp [l402Handle, hnoauth]
    · intro inv hcontra; cases hcontra
    · intro e' he; simp [l402Handle, hnoauth, gatewayErrorResponse]
  · refine ⟨?_, ?_, ?_⟩
    · simp [l402Handle, hnoauth]
    · intro inv' hinv; cases hinv
      simp [l402Handle, hnoauth, getField]
    · intro e he; cases he

set_option maxRecDepth 40000 in
/-- C6, witness: a concrete credential-less request with a succeeding
backend — the handler is skipped and a 402 challenge carrying the invoice
comes back. -/
theorem C6_amended_no_credential_challenge_witness :
    (l402Handle ⟨100, none, none, false⟩
        (.ok ⟨testPaymentHashB64, "lnbc100n1fake_invoice"⟩) 1700000000000
        ⟨none, "GET", "/api/test"⟩).nextCalls = 0 ∧
    (∀ inv, (.ok ⟨testPaymentHashB64, "lnbc100n1fake_invoice"⟩ :
        Except String LndInvoiceResponse) = .ok inv →
      ∃ r, (l402Handle ⟨100, none, none, false⟩
          (.ok ⟨testPaymentHashB64, "lnbc100n1fake_invoice"⟩) 1700000000000
          ⟨none, "GET", "/api/test"⟩).response = some r ∧ r.status = 402 ∧
        getField r.body "invoice" = some (.str inv.payment_request)) ∧
    (∀ e, (.ok ⟨testPaymentHashB64, "lnbc100n1fake_invoice"⟩ :
        Except String LndInvoiceResponse) = .error e →
      (l402Handle ⟨100, none, none, false⟩
          (.ok ⟨testPaymentHashB64, "lnbc100n1fake_invoice"⟩) 1700000000000
          ⟨none, "GET", "/api/test"⟩).response.map MwResponse.status = some 500) :=
  C6_amended_no_credential_challenge ⟨100, none, none, false⟩
    (.ok ⟨testPaymentHashB64, "lnbc100n1fake_invoice"⟩) 1700000000000
    ⟨none, "GET", "/api/test"⟩ rfl

/-- C7: a request carrying an L402-scheme credential that splits at its last
colon into a parsing macaroon and a preimage verifying against the
macaroon's embedded payment hash reaches the protected handler exactly once,
with the attached proof's `paymentHash` equal to the decoded token's. -/
theorem C7_valid_credential_reaches_handler (cfg : MwConfig)
    (invoiceResult : Except String LndInvoiceResponse)
    (now : Int) (req : MwRequest) (a : String) (data : Json) (ph : String)
    (hauth : req.authorization = some a)
    (hscheme : headerMatches (some a) = true)
    (hcolon : 0 < lastIndexOfColon (strDrop a 5))
    (hparse : parseServiceMacaroon
      (strTake (strDrop a 5) (lastIndexOfColon (strDrop a 5)).toNat) = some data)
    (hhash : getField data "paymentHash" = some (.str ph))
    (hverify : verifyPreimage
      (strDrop (strDrop a 5) ((lastIndexOfColon (strDrop a 5)).toNat + 1)) ph = true) :
    (l402Handle cfg invoiceResult now req).nextCalls = 1 ∧
    ∃ p, (l402Handle cfg invoiceResult now req).proof = some p ∧ p.paymentHash = ph := by
  simp [l402Handle, hauth, hscheme, hcolon, hparse, hhash, hverify]

set_option maxRecDepth 40000 in
/-- C7, witness: the test fixture credential `L402 macaroon:preimage` built
from the known preimage/hash pair — the handler runs once and the proof
carries the macaroon's payment hash. -/
theorem C7_valid_credential_reaches_handler_witness :
    (l402Handle ⟨100, none, none, false⟩ (.error "unused") 0
        ⟨some ("L402 " ++ testMacaroon ++ ":" ++ testPreimage), "GET", "/api/test"⟩).nextCalls
      = 1 ∧
    ∃ p, (l402Handle ⟨100, none, none, false⟩ (.error "unused") 0
        ⟨some ("L402 " ++ testMacaroon ++ ":" ++ testPreimage), "GET", "/api/test"⟩).proof
      = some p ∧ p.paymentHash = testPaymentHash :=
  C7_valid_credential_reaches_handler ⟨100, none, none, false⟩ (.error "unused") 0
    ⟨some ("L402 " ++ testMacaroon ++ ":" ++ testPreimage), "GET", "/api/test"⟩
    ("L402 " ++ testMacaroon ++ ":" ++ testPreimage)
    (.obj [("version", .num 1), ("paymentHash", .str testPaymentHash),
           ("service", .str "/api/test"), ("issuedAt", .num 1700000000000)])
    testPaymentHash rfl (by decide) (by decide) rfl rfl rfl

/-- C8: after a pay-and-retry cycle stored a credential for the target, a
second fetch of the same target against a server that no longer answers 402
issues exactly one network call (to the target, none to the backend) with
the stored credential attached verbatim as the `Authorization` header, and
leaves the cache unchanged. -/
theorem C8_cached_credential_reuse (maxAutoPaySats : Int) (w1 w2 : ClientWorld)
    (pp : String) (url : String) (h1 h2 cache0 : List (String × String))
    (hs1 : w1.firstResponse.status = 402)
    (hceiling : jsGtNum (getField w1.firstResponse.body "price") maxAutoPaySats = false)
    (hpay : w1.payOutcome = .ok "" pp)
    (hs2 : w2.firstResponse.status ≠ 402) :
    ∃ tok, getKey (l402Fetch maxAutoPaySats w1 url h1 cache0).cache url = some tok ∧
      (l402Fetch maxAutoPaySats w2 url h2
          (l402Fetch maxAutoPaySats w1 url h1 cache0).cache).events
        = [ClientEvent.targetCall (setKey h2 "Authorization" tok)] ∧
      getKey (setKey h2 "Authorization" tok) "Authorization" = some tok ∧
      (l402Fetch maxAutoPaySats w2 url h2
          (l402Fetch maxAutoPaySats w1 url h1 cache0).cache).cache
        = (l402Fetch maxAutoPaySats w1 url h1 cache0).cache := by
  rw [l402Fetch_paid maxAutoPaySats w1 url h1 cache0 pp hs1 hceiling hpay,
      l402Fetch_not402 maxAutoPaySats w2 url h2 _ hs2]
  refine ⟨"L402 " ++ jsTemplate (getField w1.firstResponse.body "macaroon") ++ ":" ++
      hexEncode (base64Decode pp), getKey_setKey _ _ _, ?_, getKey_setKey _ _ _, rfl⟩
  simp [initialHeaders, getKey_setKey]

set_option maxRecDepth 40000 in
/-- C8, witness: a concrete paid first cycle against the test challenge and
a 200-answering second call — one target call carrying the cached token. -/
theorem C8_cached_credential_reuse_witness :
    ∃ tok, getKey (l402Fetch 10000
        ⟨⟨402, testChallengeBody⟩, .ok "" testPreimageB64, ⟨200, .obj [("first", .bool true)]⟩⟩
        "https://api.example.com/joke" [] []).cache "https://api.example.com/joke" = some tok ∧
      (l402Fetch 10000
          ⟨⟨200, .obj [("second", .bool true)]⟩, .reject "unused", ⟨200, .null⟩⟩
          "https://api.example.com/joke" []
          (l402Fetch 10000
            ⟨⟨402, testChallengeBody⟩, .ok "" testPreimageB64, ⟨200, .obj [("first", .bool true)]⟩⟩
            "https://api.example.com/joke" [] []).cache).events
        = [ClientEvent.targetCall (setKey [] "Authorization" tok)] ∧
      getKey (setKey [] "Authorization" tok) "Authorization" = some tok ∧
      (l402Fetch 10000
          ⟨⟨200, .obj [("second", .bool true)]⟩, .reject "unused", ⟨200, .null⟩⟩
          "https://api.example.com/joke" []
          (l402Fetch 10000
            ⟨⟨402, testChallengeBody⟩, .ok "" testPreimageB64, ⟨200, .obj [("first", .bool true)]⟩⟩
            "https://api.example.com/joke" [] []).cache).cache
        = (l402Fetch 10000
            ⟨⟨402, testChallengeBody⟩, .ok "" testPreimageB64, ⟨200, .obj [("first", .bool true)]⟩⟩
            "https://api.example.com/joke" [] []).cache :=
  C8_cached_credential_reuse 10000
    ⟨⟨402, testChallengeBody⟩, .ok "" testPreimageB64, ⟨200, .obj [("first", .bool true)]⟩⟩
    ⟨⟨200, .obj [("second", .bool true)]⟩, .reject "unused", ⟨200, .null⟩⟩
    testPreimageB64 "https://api.example.com/joke" [] [] []
    rfl (by decide) rfl (by decide)

/-- C9: a failing payment step (transport rejection, non-ok backend status,
or a truthy `payment_error`) makes the client abort with an error and leaves
the token cache exactly as it was; and on the server any proof ever attached
to a request satisfies the preimage check, so a failed verification never
attaches one. -/
theorem C9_no_partial_state_on_failure :
    (∀ (maxAutoPaySats : Int) (world : ClientWorld) (url : String)
        (optHeaders cache : List (String × String)),
      world.firstResponse.status = 402 →
      jsGtNum (getField world.firstResponse.body "price") maxAutoPaySats = false →
      payFails world.payOutcome = true →
      (∃ msg, (l402Fetch maxAutoPaySats world url optHeaders cache).result = .error msg) ∧
      (l402Fetch maxAutoPaySats world url optHeaders cache).cache = cache) ∧
    (∀ (cfg : MwConfig) (invoiceResult : Except String LndInvoiceResponse)
        (now : Int) (req : MwRequest) (p : L402ProofData),
      (l402Handle cfg invoiceResult now req).proof = some p →
      verifyPreimage p.preimage p.paymentHash = true) := by
  constructor
  · intro maxAutoPaySats world url optHeaders cache hs hceiling hfail
    cases hpo : world.payOutcome with
    | reject msg =>
      exact ⟨⟨msg, by simp [l402Fetch, hs, hceiling, hpo]⟩,
        by simp [l402Fetch, hs, hceiling, hpo]⟩
    | httpError st stx =>
      exact ⟨⟨"LND payment failed: " ++ toString st ++ " " ++ stx,
        by simp [l402Fetch, hs, hceiling, hpo]⟩,
        by simp [l402Fetch, hs, hceiling, hpo]⟩
    | ok payErr pp =>
      have hne : payErr ≠ "" := by simpa [payFails, hpo] using hfail
      exact ⟨⟨"Lightning payment failed: " ++ payErr,
        by simp [l402Fetch, hs, hceiling, hpo, hne]⟩,
        by simp [l402Fetch, hs, hceiling, hpo, hne]⟩
  · intro cfg invoiceResult now req p hp
    simp only [l402Handle] at hp
    split at hp
    · split at hp
      · split at hp
        · split at hp
          · split at hp
            · rename_i hv
              simp only [Option.some.injEq] at hp
              subst hp
              exact hv
            · simp at hp
          · simp at hp
        · simp at hp
      · simp at hp
    · rcases invoiceResult with e | inv <;> simp at hp

set_option maxRecDepth 40000 in
/-- C9, witness: a concrete `payment_error` from LND — the client fetch
errors out and the cache stays empty; and the proof the middleware attaches
for the valid test credential does verify. -/
theorem C9_no_partial_state_on_failure_witness :
    ((∃ msg, (l402Fetch 10000
        ⟨⟨402, testChallengeBody⟩, .ok "insufficient_balance" "", ⟨200, .null⟩⟩
        "https://api.example.com/test" [] []).result = .error msg) ∧
      (l402Fetch 10000
        ⟨⟨402, testChallengeBody⟩, .ok "insufficient_balance" "", ⟨200, .null⟩⟩
        "https://api.example.com/test" [] []).cache = []) ∧
    verifyPreimage testPreimage testPaymentHash = true :=
  ⟨C9_no_partial_state_on_failure.1 10000
      ⟨⟨402, testChallengeBody⟩, .ok "insufficient_balance" "", ⟨200, .null⟩⟩
      "https://api.example.com/test" [] [] rfl (by decide) rfl,
   C9_no_partial_state_on_failure.2 ⟨100, none, none, false⟩ (.error "unused") 0
      ⟨some ("L402 " ++ testMacaroon ++ ":" ++ testPreimage), "GET", "/api/test"⟩
      ⟨testPreimage, testPaymentHash, some (.str "/api/test")⟩ rfl⟩

/-- C10: after a successful payment the client returns the retried request's
parsed body without inspecting its status — whatever the retry response is
(including 401 or a second 402), the result is `paid := true` with the
challenge's price, the revealed preimage, and that body as data, and the
credential stays in the cache. -/
theorem C10_retry_response_returned_unchecked (maxAutoPaySats p : Int)
    (world : ClientWorld) (url : String)
    (optHeaders cache : List (String × String)) (pp : String)
    (hs : world.firstResponse.status = 402)
    (hprice : getField world.firstResponse.body "price" = some (.num p))
    (hle : p ≤ maxAutoPaySats)
    (hpay : world.payOutcome = .ok "" pp) :
    (l402Fetch maxAutoPaySats world url optHeaders cache).result =
      .ok { data := world.retryResponse.body, paid := true,
            price := some (.num p),
            preimage := some (hexEncode (base64Decode pp)) } ∧
    getKey (l402Fetch maxAutoPaySats world url optHeaders cache).cache url =
      some ("L402 " ++ jsTemplate (getField world.firstResponse.body "macaroon") ++ ":" ++
        hexEncode (base64Decode pp)) := by
  have hceiling : jsGtNum (some (Json.num p)) maxAutoPaySats = false := by
    simp [jsGtNum]; omega
  constructor
  · simp [l402Fetch, hs, hceiling, hpay, hprice]
  · simp only [l402Fetch, hs, hceiling, hpay, hprice]
    simp [hceiling]
    exact getKey_setKey _ _ _

set_option maxRecDepth 40000 in
/-- C10, witness: the retry itself answers 402 again — the client still
resolves `paid := true` with that 402 challenge body as data, and the
(rejected) credential remains cached. -/
theorem C10_retry_response_returned_unchecked_witness :
    (l402Fetch 10000
        ⟨⟨402, testChallengeBody⟩, .ok "" testPreimageB64, ⟨402, testChallengeBody⟩⟩
        "https://api.example.com/test" [] []).result =
      .ok { data := testChallengeBody, paid := true,
            price := some (.num 100), preimage := some testPreimage } ∧
    getKey (l402Fetch 10000
        ⟨⟨402, testChallengeBody⟩, .ok "" testPreimageB64, ⟨402, testChallengeBody⟩⟩
        "https://api.example.com/test" [] []).cache "https://api.example.com/test" =
      some ("L402 " ++ testMacaroon ++ ":" ++ testPreimage) :=
  C10_retry_response_returned_unchecked 10000 100
    ⟨⟨402, testChallengeBody⟩, .ok "" testPreimageB64, ⟨402, testChallengeBody⟩⟩
    "https://api.example.com/test" [] [] testPreimageB64
    rfl rfl (by decide) rfl

end L402
